import Mathlib

/-
Verification of the driver-registry module of the `cloudstorage` package
(src/cloudstorage/__init__.py), a shallow embedding in Lean 4.

The module defines the `DriverName` enumeration (five provider identifiers,
each enum member's value string equal to its member name), the registry
dictionary `_DRIVER_IMPORTS` mapping each member to a pair of a module path
and a class name, and the two lookup functions `get_driver` (dictionary
lookup, raising `CloudStorageError` when the key is absent) and
`get_driver_by_name` (Python enum lookup `DriverName[name]`, which raises
`KeyError` on an unknown name, followed by `get_driver`).  The module's
top-level code also eagerly loads several modules, among them all five
concrete driver modules.
-/

namespace Cloudstorage

/-- The `DriverName` enumeration of src/cloudstorage/__init__.py: the closed
set of provider identifiers. -/
inductive DriverName where
  | AZURE
  | CLOUDFILES
  | GOOGLESTORAGE
  | LOCAL
  | S3
  deriving DecidableEq, Repr

/-- The `name` attribute of each enum member (the member's identifier). -/
def DriverName.nm : DriverName → String
  | .AZURE => "AZURE"
  | .CLOUDFILES => "CLOUDFILES"
  | .GOOGLESTORAGE => "GOOGLESTORAGE"
  | .LOCAL => "LOCAL"
  | .S3 => "S3"

/-- The `value` attribute of each enum member, as assigned in the source:
`AZURE = 'AZURE'`, `CLOUDFILES = 'CLOUDFILES'`, `GOOGLESTORAGE =
'GOOGLESTORAGE'`, `LOCAL = 'LOCAL'`, `S3 = 'S3'`. -/
def DriverName.value : DriverName → String
  | .AZURE => "AZURE"
  | .CLOUDFILES => "CLOUDFILES"
  | .GOOGLESTORAGE => "GOOGLESTORAGE"
  | .LOCAL => "LOCAL"
  | .S3 => "S3"

/-- The list of members of the enumeration, in declaration order. -/
def DriverName.members : List DriverName :=
  [.AZURE, .CLOUDFILES, .GOOGLESTORAGE, .LOCAL, .S3]

/-- Python enum name lookup `DriverName[s]`: the member whose `name`
attribute equals `s` exactly (case-sensitive), or `none` when no member
matches (Python raises `KeyError(s)` in that case). -/
def DriverName.fromName (s : String) : Option DriverName :=
  DriverName.members.find? (fun d => d.nm = s)

/-- A Python value that may be passed to `get_driver`.  The function is
annotated to take a `DriverName`, but Python does not enforce annotations,
and the dictionary membership test `driver in _DRIVER_IMPORTS` is defined
for any value; a string is never equal to an enum member. -/
inductive PyObj where
  | enumMember (d : DriverName)
  | pyString (s : String)
  deriving DecidableEq, Repr

/-- Python `str` of a value as used by the `"%s"` format in the error
message of `get_driver`: `str` of an enum member is `DriverName.<name>`,
`str` of a string is the string itself. -/
def pyStr : PyObj → String
  | .enumMember d => "DriverName." ++ d.nm
  | .pyString s => s

/-- Python `==` between a candidate dictionary key and an enum member key of
`_DRIVER_IMPORTS`: enum members compare by identity, and a string is never
equal to an enum member. -/
def pyEqKey (x : PyObj) (d : DriverName) : Bool :=
  match x with
  | .enumMember d2 => d2 = d
  | .pyString _ => false

/-- A Python class object, identified by the module that defines it and the
attribute name under which it is defined, as produced by
`getattr(__import__(mod_name, ...), driver_name)`. -/
structure ClassRef where
  module : String
  cls : String
  deriving DecidableEq, Repr

/-- The exceptions the registry module can raise: `CloudStorageError(msg)`
from `get_driver`, and the builtin `KeyError(key)` from the enum lookup
`DriverName[driver_name]` in `get_driver_by_name`.  `KeyError` is a Python
builtin, not a subclass of `CloudStorageError`. -/
inductive PyErr where
  | cloudStorageError (msg : String)
  | keyError (key : String)
  deriving DecidableEq, Repr

/-- Whether an exception is of the `CloudStorageError` kind. -/
def PyErr.isCloudStorage : PyErr → Bool
  | .cloudStorageError _ => true
  | .keyError _ => false

/-- The `_DRIVER_IMPORTS` dictionary of src/cloudstorage/__init__.py: each
`DriverName` member mapped to the pair of its driver module path and its
driver class name. -/
def DRIVER_IMPORTS : List (DriverName × String × String) :=
  [(.AZURE, ("cloudstorage.drivers.microsoft", "AzureStorageDriver")),
   (.CLOUDFILES, ("cloudstorage.drivers.rackspace", "CloudFilesDriver")),
   (.GOOGLESTORAGE, ("cloudstorage.drivers.google", "GoogleStorageDriver")),
   (.LOCAL, ("cloudstorage.drivers.local", "LocalDriver")),
   (.S3, ("cloudstorage.drivers.amazon", "S3Driver"))]

/-- The dictionary membership test `driver in _DRIVER_IMPORTS`. -/
def inRegistry (x : PyObj) : Bool :=
  (DRIVER_IMPORTS.find? (fun p => pyEqKey x p.1)).isSome

/-- `get_driver` of src/cloudstorage/__init__.py: if the argument is a key
of `_DRIVER_IMPORTS`, unpack `(mod_name, driver_name)`, execute
`__import__(mod_name, globals(), locals(), [driver_name])` and return
`getattr(_mod, driver_name)`; otherwise raise
`CloudStorageError("Driver '%s' does not exist." % driver)`. -/
def get_driver (driver : PyObj) : Except PyErr ClassRef :=
  match DRIVER_IMPORTS.find? (fun p => pyEqKey driver p.1) with
  | some (_, mod_name, driver_name) => .ok ⟨mod_name, driver_name⟩
  | none =>
      .error (.cloudStorageError
        ("Driver '" ++ pyStr driver ++ "' does not exist."))

/-- `get_driver_by_name` of src/cloudstorage/__init__.py:
`driver = DriverName[driver_name]` (raising `KeyError(driver_name)` when no
member has that name), then `return get_driver(driver)`. -/
def get_driver_by_name (driver_name : String) : Except PyErr ClassRef :=
  match DriverName.fromName driver_name with
  | some driver => get_driver (.enumMember driver)
  | none => .error (.keyError driver_name)

/-- The interpreter's set of loaded modules, in load order. -/
abbrev ImportState := List String

/-- `__import__(mod_name, ...)`: loads the module if it is not already
loaded (Python caches loaded modules in `sys.modules`). -/
def importModule (mod_name : String) (st : ImportState) : ImportState :=
  if mod_name ∈ st then st else st ++ [mod_name]

/-- `get_driver` with the interpreter's module-loading effect made
explicit: on a hit the body executes `__import__(mod_name, ...)` for the
single module mapped to the requested key, so exactly that module is
loaded; on a miss nothing is loaded and the error is raised. -/
def get_driverSt (st : ImportState) (driver : PyObj) :
    ImportState × Except PyErr ClassRef :=
  match DRIVER_IMPORTS.find? (fun p => pyEqKey driver p.1) with
  | some (_, mod_name, driver_name) =>
      (importModule mod_name st, .ok ⟨mod_name, driver_name⟩)
  | none =>
      (st, .error (.cloudStorageError
        ("Driver '" ++ pyStr driver ++ "' does not exist.")))

/-- `get_driver_by_name` with the module-loading effect made explicit: the
enum lookup loads nothing, then `get_driver` runs. -/
def get_driver_by_nameSt (st : ImportState) (driver_name : String) :
    ImportState × Except PyErr ClassRef :=
  match DriverName.fromName driver_name with
  | some driver => get_driverSt st (.enumMember driver)
  | none => (st, .error (.keyError driver_name))

/-- The modules loaded by the top-level code of
src/cloudstorage/__init__.py before any registry function can be called:
the module's `from ... import ...` statements eagerly load `logging`,
`enum`, `typing`, `cloudstorage.base`, all five concrete driver modules,
and `cloudstorage.exceptions`, in source order. -/
def packageEagerImports : List String :=
  ["logging", "enum", "typing",
   "cloudstorage.base",
   "cloudstorage.drivers.amazon",
   "cloudstorage.drivers.google",
   "cloudstorage.drivers.local",
   "cloudstorage.drivers.microsoft",
   "cloudstorage.drivers.rackspace",
   "cloudstorage.exceptions"]

/-- The interpreter state after `import cloudstorage` has executed the
package's top-level code. -/
def packageLoadedState : ImportState :=
  packageEagerImports.foldl (fun st m => importModule m st) []

/-- All modules loaded once a caller has imported the package and requested
the driver for identifier `d`. -/
def modulesLoadedFor (d : DriverName) : ImportState :=
  (get_driverSt packageLoadedState (.enumMember d)).1

/-- The driver module path that `_DRIVER_IMPORTS` maps identifier `d` to. -/
def driverModule (d : DriverName) : String :=
  (((DRIVER_IMPORTS.find? (fun p => p.1 = d)).map (fun p => p.2.1)).getD "")

/-- The five known driver names accepted by `get_driver_by_name`. -/
def knownDriverNames : List String :=
  ["AZURE", "CLOUDFILES", "GOOGLESTORAGE", "LOCAL", "S3"]

/-- Helper: when a string is not one of the five member names, the enum
name lookup finds no member. -/
theorem fromName_none_of_unknown (s : String) (hs : s ∉ knownDriverNames) :
    DriverName.fromName s = none := by
  simp only [knownDriverNames, List.mem_cons, List.not_mem_nil, or_false,
    not_or] at hs
  obtain ⟨h1, h2, h3, h4, h5⟩ := hs
  simp [DriverName.fromName, DriverName.members, List.find?, DriverName.nm,
    Ne.symm h1, Ne.symm h2, Ne.symm h3, Ne.symm h4, Ne.symm h5]

/-- C1 counterexample: `get_driver_by_name` applied to the unknown string
`"FOO"` fails with a `KeyError` from the enum lookup, which is not a
`CloudStorageError`-kind error, contradicting the claim that every unknown
name fails with a `CloudStorageError`-kind lookup error. -/
theorem unknown_name_keyerror_not_cloudstorage :
    get_driver_by_name "FOO" = Except.error (PyErr.keyError "FOO") ∧
    PyErr.isCloudStorage (PyErr.keyError "FOO") = false := by
  exact ⟨rfl, rfl⟩

/-- C1 (amended): `get_driver` applied to a value that is not a key of the
registry mapping raises `CloudStorageError` with a message naming the
invalid identifier; but `get_driver_by_name` applied to a string that is
not one of the five known names raises the builtin `KeyError` naming that
string, from the enum name lookup, not a `CloudStorageError`. -/
theorem unknown_identifier_error_kinds (x : PyObj) (s : String)
    (hx : inRegistry x = false) (hs : DriverName.fromName s = none) :
    get_driver x = Except.error (PyErr.cloudStorageError
      ("Driver '" ++ pyStr x ++ "' does not exist.")) ∧
    get_driver_by_name s = Except.error (PyErr.keyError s) := by
  constructor
  · have h : DRIVER_IMPORTS.find? (fun p => pyEqKey x p.1) = none := by
      unfold inRegistry at hx
      cases h2 : DRIVER_IMPORTS.find? (fun p => pyEqKey x p.1)
      · rfl
      · rw [h2] at hx; simp at hx
    simp [get_driver, h]
  · simp [get_driver_by_name, hs]

/-- C1 amended, witnessed at the concrete inputs `PyObj.pyString "FOO"`
(not a registry key) and the unknown name `"local"`. -/
theorem unknown_identifier_error_kinds_witness :
    inRegistry (PyObj.pyString "FOO") = false ∧
    DriverName.fromName "local" = none ∧
    (get_driver (PyObj.pyString "FOO") = Except.error (PyErr.cloudStorageError
        ("Driver '" ++ pyStr (PyObj.pyString "FOO") ++ "' does not exist.")) ∧
      get_driver_by_name "local" = Except.error (PyErr.keyError "local")) :=
  ⟨rfl, rfl,
    unknown_identifier_error_kinds (PyObj.pyString "FOO") "local" rfl rfl⟩

/-- C2 counterexample: requesting the LOCAL driver still requires the
Amazon driver module to be loaded, because the package top-level code loads
it eagerly: `cloudstorage.drivers.amazon` is among the modules loaded when
`get_driver DriverName.LOCAL` runs after the package import, even though
the registry maps LOCAL to `cloudstorage.drivers.local`, a different
module.  Selecting one provider therefore requires the other providers'
modules to be importable, contradicting the laziness claim. -/
theorem selecting_local_loads_amazon_module :
    "cloudstorage.drivers.amazon" ∈ modulesLoadedFor DriverName.LOCAL ∧
    driverModule DriverName.LOCAL = "cloudstorage.drivers.local" ∧
    "cloudstorage.drivers.amazon" ≠ "cloudstorage.drivers.local" := by
  refine ⟨?_, rfl, by decide⟩
  decide

/-- C2 (amended): the body of `get_driver` itself is lazy, importing
exactly the one module the registry maps the requested identifier to; but
the package top-level code eagerly imports all five driver modules, so the
other providers' modules must be importable before any registry call can
run. -/
theorem get_driver_lazy_but_package_eager :
    (∀ d : DriverName,
      (get_driverSt [] (PyObj.enumMember d)).1 = [driverModule d]) ∧
    (DRIVER_IMPORTS.map (fun p => p.2.1)).all
      (fun m => packageEagerImports.contains m) = true := by
  constructor
  · intro d; cases d <;> rfl
  · decide

/-- C3: for every member `d` of the `DriverName` enumeration,
`get_driver_by_name` applied to the member name returns the same driver
class as `get_driver` applied to the member itself; in particular for
LOCAL. -/
theorem by_name_matches_by_member (d : DriverName) :
    get_driver_by_name d.nm = get_driver (PyObj.enumMember d) := by
  cases d <;> rfl

/-- C4: for every member of the `DriverName` enumeration, the registry
membership test succeeds and `get_driver` returns a driver class without
reaching the `CloudStorageError` branch. -/
theorem get_driver_total_on_members (d : DriverName) :
    inRegistry (PyObj.enumMember d) = true ∧
    ∃ c : ClassRef, get_driver (PyObj.enumMember d) = Except.ok c := by
  cases d <;> exact ⟨rfl, _, rfl⟩

/-- C5: the set of provider identifiers is closed — every `DriverName` is
one of the five enumeration members — and the registry maps each
identifier to its provider's concrete driver class: AZURE to
`AzureStorageDriver`, CLOUDFILES to `CloudFilesDriver`, GOOGLESTORAGE to
`GoogleStorageDriver`, LOCAL to `LocalDriver`, S3 to `S3Driver`. -/
theorem registry_closed_and_exact :
    (∀ d : DriverName, d ∈ DriverName.members) ∧
    DRIVER_IMPORTS.map (fun p => (p.1, p.2.2)) =
      [(DriverName.AZURE, "AzureStorageDriver"),
       (DriverName.CLOUDFILES, "CloudFilesDriver"),
       (DriverName.GOOGLESTORAGE, "GoogleStorageDriver"),
       (DriverName.LOCAL, "LocalDriver"),
       (DriverName.S3, "S3Driver")] := by
  refine ⟨fun d => ?_, rfl⟩
  cases d <;> decide

/-- C6: `get_driver_by_name` is case-sensitive and accepts exactly the five
uppercase names: a known name yields a driver class, and any other string
fails with `KeyError` from the enum name lookup, before `get_driver` is
reached. -/
theorem by_name_case_sensitive (s : String) :
    (s ∈ knownDriverNames →
      ∃ c : ClassRef, get_driver_by_name s = Except.ok c) ∧
    (s ∉ knownDriverNames →
      get_driver_by_name s = Except.error (PyErr.keyError s)) := by
  constructor
  · intro hs
    simp only [knownDriverNames, List.mem_cons, List.not_mem_nil,
      or_false] at hs
    rcases hs with h | h | h | h | h <;> subst h <;> exact ⟨_, rfl⟩
  · intro hs
    have h := fromName_none_of_unknown s hs
    simp [get_driver_by_name, h]

/-- C6, witnessed at the lowercase string `"local"`, which is rejected with
a `KeyError`. -/
theorem by_name_case_sensitive_witness :
    "local" ∉ knownDriverNames ∧
    get_driver_by_name "local" = Except.error (PyErr.keyError "local") :=
  ⟨by decide, (by_name_case_sensitive "local").2 (by decide)⟩

/-- C7: registry lookup is deterministic — the class returned by
`get_driver`, and likewise by `get_driver_by_name`, does not depend on the
interpreter's module-loading state, so any two calls with the same argument
return the same driver class; moreover the stateful model agrees with the
pure `get_driver`. -/
theorem registry_lookup_deterministic :
    (∀ (st1 st2 : ImportState) (x : PyObj),
      (get_driverSt st1 x).2 = (get_driverSt st2 x).2) ∧
    (∀ (st1 st2 : ImportState) (s : String),
      (get_driver_by_nameSt st1 s).2 = (get_driver_by_nameSt st2 s).2) ∧
    (∀ (st : ImportState) (x : PyObj),
      (get_driverSt st x).2 = get_driver x) := by
  have hpure : ∀ (st : ImportState) (x : PyObj),
      (get_driverSt st x).2 = get_driver x := by
    intro st x
    unfold get_driverSt get_driver
    cases h : DRIVER_IMPORTS.find? (fun p => pyEqKey x p.1) with
    | none => rfl
    | some p => obtain ⟨d, m, c⟩ := p; rfl
  refine ⟨fun st1 st2 x => ?_, fun st1 st2 s => ?_, hpure⟩
  · rw [hpure st1 x, hpure st2 x]
  · unfold get_driver_by_nameSt
    rcases DriverName.fromName s with _ | d
    · rfl
    · exact (hpure st1 (PyObj.enumMember d)).trans
        (hpure st2 (PyObj.enumMember d)).symm

/-- C8: for every member of the `DriverName` enumeration, the value string
equals the member name, so enum lookup by name agrees with construction
from the value: `DriverName[d.value] = d`. -/
theorem value_eq_name_and_roundtrip (d : DriverName) :
    d.value = d.nm ∧ DriverName.fromName d.value = some d := by
  cases d <;> exact ⟨rfl, rfl⟩

end Cloudstorage
